/-
Verification of the vk_engine swapchain/synchronization core against its
natural-language specification.  The Rust sources are shallowly embedded:
pure selection logic becomes Lean functions over Nat-modelled machine
integers, stateful resource managers become explicit state passing with
Except for panics, and each example's frame-loop body becomes a function
from the loop state and the acquire/present results to the trace of
orchestration calls it performs.
-/
import Mathlib

namespace VkEngine

/-! ## Basic data model (ash/vk types used by the embedded functions) -/

/-- vk::Extent2D, two u32 fields (modelled as Nat). -/
structure Extent2D where
  width : Nat
  height : Nat
deriving DecidableEq, Repr

/-- The u32::MAX sentinel used by choose_swap_extent. -/
def U32_MAX : Nat := 4294967295

/-- vk::SurfaceCapabilitiesKHR, restricted to the fields the embedded code reads. -/
structure SurfaceCapabilitiesKHR where
  minImageCount : Nat
  maxImageCount : Nat
  currentExtent : Extent2D
  minImageExtent : Extent2D
  maxImageExtent : Extent2D
deriving DecidableEq, Repr

/-- vk::SurfaceFormatKHR: (format, color_space), each a Vulkan enum code. -/
structure SurfaceFormatKHR where
  format : Nat
  colorSpace : Nat
deriving DecidableEq, Repr

/-- Vulkan enum code of vk::Format::R8G8B8A8_SRGB. -/
def FORMAT_R8G8B8A8_SRGB : Nat := 43

/-- Vulkan enum code of vk::ColorSpaceKHR::SRGB_NONLINEAR. -/
def COLOR_SPACE_SRGB_NONLINEAR : Nat := 0

/-- The preferred (format, color-space) pair of choose_swap_surface_format. -/
def preferredSurfaceFormat : SurfaceFormatKHR :=
  { format := FORMAT_R8G8B8A8_SRGB, colorSpace := COLOR_SPACE_SRGB_NONLINEAR }

/-- Rust u32::clamp(min, max) on the defined domain min ≤ max (Rust asserts
min ≤ max; theorems below only use this function under that assumption). -/
def rustClampU32 (x lo hi : Nat) : Nat :=
  if x < lo then lo else if x > hi then hi else x

/-! ## src/engine_core/swapchain.rs -/

/-- Embeds choose_swap_surface_format's for-loop over the format list:
returns the first entry equal to the preferred (R8G8B8A8_SRGB,
SRGB_NONLINEAR) pair, none if no entry matches. -/
def chooseFormatLoop : List SurfaceFormatKHR → Option SurfaceFormatKHR
  | [] => none
  | f :: rest =>
    if f.format = FORMAT_R8G8B8A8_SRGB ∧ f.colorSpace = COLOR_SPACE_SRGB_NONLINEAR then
      some f
    else
      chooseFormatLoop rest

/-- Embeds swapchain.rs choose_swap_surface_format.  The Rust function indexes
formats[0] on fallthrough, which panics on an empty vector; the embedding
returns none in that case. -/
def choose_swap_surface_format (formats : List SurfaceFormatKHR) : Option SurfaceFormatKHR :=
  match chooseFormatLoop formats with
  | some f => some f
  | none => formats.head?

/-- Embeds swapchain.rs choose_swap_extent.  The window argument is the
window's inner size as queried by the Rust code. -/
def choose_swap_extent (windowInnerSize : Extent2D) (capabilities : SurfaceCapabilitiesKHR) :
    Extent2D :=
  if capabilities.currentExtent.width ≠ U32_MAX then
    capabilities.currentExtent
  else
    { width := rustClampU32 windowInnerSize.width
        capabilities.minImageExtent.width capabilities.maxImageExtent.width,
      height := rustClampU32 windowInnerSize.height
        capabilities.minImageExtent.height capabilities.maxImageExtent.height }

/-! ## src/engine_core.rs: swapchain image count -/

/-- Embeds the image_count block of engine_core.rs create_swapchain:
count = min_image_count + 1, lowered to max_image_count when that cap is
nonzero and exceeded. -/
def swapchainImageCount (capabilities : SurfaceCapabilitiesKHR) : Nat :=
  let count := capabilities.minImageCount + 1
  if capabilities.maxImageCount > 0 ∧ count > capabilities.maxImageCount then
    capabilities.maxImageCount
  else
    count

/-! ## src/engine_core/buffer.rs and textures.rs: find_memory_type -/

/-- vk::MemoryType, restricted to the property_flags bitmask the code reads. -/
structure MemoryType where
  propertyFlags : Nat
deriving DecidableEq, Repr

/-- The loop condition of find_memory_type at index i: the type-filter bit i
is set and the type's property flags contain (are a superset of) the
requested properties. -/
def memTypeMatches (typeFilter properties : Nat) (i : Nat) (m : MemoryType) : Prop :=
  typeFilter &&& (1 <<< i) ≠ 0 ∧ m.propertyFlags &&& properties = properties

instance (typeFilter properties i : Nat) (m : MemoryType) :
    Decidable (memTypeMatches typeFilter properties i m) := by
  unfold memTypeMatches
  infer_instance

/-- The enumerate loop of find_memory_type, carrying the running index. -/
def findMemoryTypeLoop (typeFilter properties : Nat) :
    Nat → List MemoryType → Except String (Nat × MemoryType)
  | _, [] => .error "No suitable memory type found!"
  | i, m :: rest =>
    if typeFilter &&& (1 <<< i) ≠ 0 ∧ m.propertyFlags &&& properties = properties then
      .ok (i, m)
    else
      findMemoryTypeLoop typeFilter properties (i + 1) rest

/-- Embeds the nested find_memory_type of buffer.rs allocate_and_bind_buffer
(textually identical in textures.rs allocate_and_bind_image): scan the
reported memory types in index order for the first match. -/
def find_memory_type (memoryTypes : List MemoryType) (typeFilter properties : Nat) :
    Except String (Nat × MemoryType) :=
  findMemoryTypeLoop typeFilter properties 0 memoryTypes

/-! ## src/engine_core.rs: find_physical_device

Physical devices are modelled by identifiers (Nat); the instance/surface
environment is abstracted into a score function so that
phys_device::device_suitability(d) is score d. -/

/-- Result of find_physical_device: either of its two panics, or the device
returned together with its queue-family indices (elided: derived from the
device). -/
inductive FindDeviceResult where
  | panicNoVulkan
  | panicNoSuitableGPU
  | found (device : Nat)
deriving DecidableEq, Repr

/-- Rust Iterator::max_by_key on a nonempty list d :: ds: the key is computed
once per element in order and ties keep the later element. -/
def maxByKeyLast (key : Nat → Nat) (d : Nat) (ds : List Nat) : Nat :=
  ds.foldl (fun acc x => if key acc > key x then acc else x) d

/-- Embeds engine_core.rs find_physical_device.  The mutable suitability
variable is written by the max_by_key closure once per enumerated device, so
after the iterator is consumed it holds the score of the LAST device, and the
zero test is performed on that value. -/
def find_physical_device (score : Nat → Nat) (devices : List Nat) : FindDeviceResult :=
  match devices with
  | [] => .panicNoVulkan
  | d :: ds =>
    let suitability := score (ds.getLastD d)
    let physicalDevice := maxByKeyLast score d ds
    if suitability = 0 then .panicNoSuitableGPU else .found physicalDevice

/-- Concrete score environment for exercising find_physical_device: device 0
scores 1000 (a discrete GPU that passes every qualification check), every
other device scores 0 (disqualified). -/
def scoreEx : Nat → Nat := fun d => if d = 0 then 1000 else 0

/-! ## src/engine_core/buffer.rs ManagedBuffer and textures.rs ManagedImage

The device calls issued by the mapping/teardown paths are recorded as a
trace; Rust panics become Except.error. -/

/-- ash device calls issued by ManagedBuffer/ManagedImage methods and drops. -/
inductive DeviceCall where
  | unmapMemory (memory : Nat)
  | freeMemory (memory : Nat)
  | destroyBuffer
  | destroyImageView
  | destroyImage
deriving DecidableEq, Repr

/-- The state both managers share: ManagedBuffer's (buffer_memory,
memory_ptr) and ManagedImage's (image_memory, memory_ptr).  Handles are
elided; memory objects and mapped pointers are Nat. -/
structure MemoryState where
  memory : Option Nat
  memoryPtr : Option Nat
deriving DecidableEq, Repr

/-- Embeds ManagedBuffer::map_buffer_memory; p is the pointer the device
returns from vkMapMemory. -/
def map_buffer_memory (s : MemoryState) (p : Nat) : Except String MemoryState :=
  match s.memory with
  | some _ =>
    if s.memoryPtr.isSome then
      .error "Attempt to re-map buffer memory!"
    else
      .ok { s with memoryPtr := some p }
  | none => .error "Attempt to map unallocated/unbound buffer memory!"

/-- Embeds ManagedBuffer::unmap_buffer_memory: issues the unmap device call
on buffer_memory.unwrap() but leaves memory_ptr untouched. -/
def unmap_buffer_memory (s : MemoryState) : Except String (MemoryState × List DeviceCall) :=
  if s.memoryPtr.isSome then
    match s.memory with
    | some m => .ok (s, [DeviceCall.unmapMemory m])
    | none => .error "called unwrap on a None value"
  else
    .error "Attempt to unmap unmapped buffer memory!"

/-- Embeds Drop for ManagedBuffer: unmap if memory_ptr is Some, free the
memory if present, then destroy the buffer. -/
def managedBufferDrop (s : MemoryState) : Except String (List DeviceCall) := do
  let (s1, tr1) ← if s.memoryPtr.isSome then unmap_buffer_memory s else .ok (s, [])
  let tr2 := match s1.memory with
    | some m => [DeviceCall.freeMemory m]
    | none => []
  return tr1 ++ tr2 ++ [DeviceCall.destroyBuffer]

/-- Embeds ManagedImage::map_image_memory. -/
def map_image_memory (s : MemoryState) (p : Nat) : Except String MemoryState :=
  match s.memory with
  | some _ =>
    if s.memoryPtr.isSome then
      .error "Attempt to re-map image memory!"
    else
      .ok { s with memoryPtr := some p }
  | none => .error "Attempt to map unallocated/unbound image memory!"

/-- Embeds ManagedImage::unmap_image_memory: issues the unmap device call on
image_memory.unwrap() but leaves memory_ptr untouched. -/
def unmap_image_memory (s : MemoryState) : Except String (MemoryState × List DeviceCall) :=
  if s.memoryPtr.isSome then
    match s.memory with
    | some m => .ok (s, [DeviceCall.unmapMemory m])
    | none => .error "called unwrap on a None value"
  else
    .error "Attempt to unmap unmapped image memory!"

/-- Embeds Drop for ManagedImage: unmap if memory_ptr is Some, free the
memory if present, then destroy the image view, then the image. -/
def managedImageDrop (s : MemoryState) : Except String (List DeviceCall) := do
  let (s1, tr1) ← if s.memoryPtr.isSome then unmap_image_memory s else .ok (s, [])
  let tr2 := match s1.memory with
    | some m => [DeviceCall.freeMemory m]
    | none => []
  return tr1 ++ tr2 ++ [DeviceCall.destroyImageView, DeviceCall.destroyImage]

/-- First occurrence of a lies strictly before some later occurrence of b. -/
def occursBefore (a b : DeviceCall) : List DeviceCall → Bool
  | [] => false
  | c :: rest =>
    if c = a then rest.contains b
    else if c = b then false
    else occursBefore a b rest

/-! ## Frame-loop orchestration

The MainEventsCleared body of each variant (examples/cube.rs,
examples/mandelbrot.rs, src/main.rs) is embedded as a function from the
current frame slot and the results the device returns for acquire and
present to the trace of orchestration calls the iteration performs and the
frame-slot value the loop continues with. -/

/-- MAX_FRAMES_IN_FLIGHT from engine_core.rs. -/
def MAX_FRAMES_IN_FLIGHT : Nat := 2

/-- Outcome of acquire_next_image as discriminated by the example loops
(suboptimality is reported through the Ok payload by the bindings). -/
inductive AcquireResult where
  | success (imageIndex : Nat) (suboptimal : Bool)
  | errOutOfDate
  | errSuboptimal
  | errOther
deriving DecidableEq, Repr

/-- Outcome of present_image as discriminated by the example loops. -/
inductive PresentResult where
  | ok (suboptimal : Bool)
  | errOutOfDate
  | errSuboptimal
  | errOther
deriving DecidableEq, Repr

/-- The orchestration calls a frame-loop iteration makes, with the indices
they are given. -/
inductive FrameEvent where
  | waitFence (slot : Nat)
  | acquireImage (slot : Nat)
  | resetFence (slot : Nat)
  | recordCommandBuffer (bufferIndex : Nat)
  | reallocAndRecordAll
  | queueSubmit (bufferIndex fenceIndex : Nat)
  | presentImage (imageIndex : Nat)
  | recreateSwapchain
  | panicked
deriving DecidableEq, Repr

/-- Which indices application.rs submit_drawing_command_buffer(buffer_index)
uses: the wait semaphore, signal semaphore, submitted command buffer and
in-flight fence are ALL taken at buffer_index. -/
structure SubmitIndices where
  waitSemaphoreIndex : Nat
  signalSemaphoreIndex : Nat
  commandBufferIndex : Nat
  fenceIndex : Nat
deriving DecidableEq, Repr

/-- Embeds application.rs submit_drawing_command_buffer. -/
def submit_drawing_command_buffer (bufferIndex : Nat) : SubmitIndices :=
  { waitSemaphoreIndex := bufferIndex,
    signalSemaphoreIndex := bufferIndex,
    commandBufferIndex := bufferIndex,
    fenceIndex := bufferIndex }

/-- Embeds the MainEventsCleared body of examples/cube.rs: wait on slot
fence, acquire (out-of-date aborts the iteration by recreating before the
fence reset), reset the fence, record and submit the command buffer at
current_frame, present the acquired image (out-of-date recreates without an
early return), then advance the slot modulo MAX_FRAMES_IN_FLIGHT. -/
def cubeFrameIteration (currentFrame : Nat) (acq : AcquireResult) (pres : PresentResult) :
    List FrameEvent × Nat :=
  let pre := [FrameEvent.waitFence currentFrame, FrameEvent.acquireImage currentFrame]
  match acq with
  | .errOutOfDate => (pre ++ [FrameEvent.recreateSwapchain], currentFrame)
  | .success imageIndex _ =>
    let submitIdx := submit_drawing_command_buffer currentFrame
    let body := pre ++
      [FrameEvent.resetFence currentFrame,
        FrameEvent.recordCommandBuffer currentFrame,
        FrameEvent.queueSubmit submitIdx.commandBufferIndex submitIdx.fenceIndex,
        FrameEvent.presentImage imageIndex]
    match pres with
    | .ok _ => (body, (currentFrame + 1) % MAX_FRAMES_IN_FLIGHT)
    | .errOutOfDate =>
      (body ++ [FrameEvent.recreateSwapchain], (currentFrame + 1) % MAX_FRAMES_IN_FLIGHT)
    | _ => (body ++ [FrameEvent.panicked], currentFrame)
  | _ => (pre ++ [FrameEvent.panicked], currentFrame)

/-- Embeds the MainEventsCleared body of examples/mandelbrot.rs; it differs
from cube.rs in also recreating on a suboptimal acquire error and in
returning early (slot not advanced) when present reports
out-of-date/suboptimal. -/
def mandelbrotFrameIteration (currentFrame : Nat) (acq : AcquireResult)
    (pres : PresentResult) : List FrameEvent × Nat :=
  let pre := [FrameEvent.waitFence currentFrame, FrameEvent.acquireImage currentFrame]
  match acq with
  | .errOutOfDate => (pre ++ [FrameEvent.recreateSwapchain], currentFrame)
  | .errSuboptimal => (pre ++ [FrameEvent.recreateSwapchain], currentFrame)
  | .success imageIndex _ =>
    let submitIdx := submit_drawing_command_buffer currentFrame
    let body := pre ++
      [FrameEvent.resetFence currentFrame,
        FrameEvent.recordCommandBuffer currentFrame,
        FrameEvent.queueSubmit submitIdx.commandBufferIndex submitIdx.fenceIndex,
        FrameEvent.presentImage imageIndex]
    match pres with
    | .ok _ => (body, (currentFrame + 1) % MAX_FRAMES_IN_FLIGHT)
    | .errOutOfDate => (body ++ [FrameEvent.recreateSwapchain], currentFrame)
    | .errSuboptimal => (body ++ [FrameEvent.recreateSwapchain], currentFrame)
    | .errOther => (body ++ [FrameEvent.panicked], currentFrame)
  | .errOther => (pre ++ [FrameEvent.panicked], currentFrame)

/-- Embeds the MainEventsCleared body of src/main.rs (the erupt variant):
wait, acquire (out-of-date recreates and returns before the fence reset),
reset the fence, optionally reallocate and re-record every command buffer
(zooming animation), submit the command buffer at the ACQUIRED image index
with slot f's fence, present; at the end the loop executes
current_frame = current_frame % MAX_FRAMES_IN_FLIGHT, with no increment. -/
def mainRsFrameIteration (currentFrame : Nat) (acq : AcquireResult) (pres : PresentResult)
    (zooming : Bool) : List FrameEvent × Nat :=
  let pre := [FrameEvent.waitFence currentFrame, FrameEvent.acquireImage currentFrame]
  match acq with
  | .errOutOfDate => (pre ++ [FrameEvent.recreateSwapchain], currentFrame)
  | .success imageIndex _ =>
    let body := pre ++
      [FrameEvent.resetFence currentFrame] ++
      (if zooming then [FrameEvent.reallocAndRecordAll] else []) ++
      [FrameEvent.queueSubmit imageIndex currentFrame,
        FrameEvent.presentImage imageIndex]
    match pres with
    | .ok _ => (body, currentFrame % MAX_FRAMES_IN_FLIGHT)
    | .errOutOfDate => (body ++ [FrameEvent.recreateSwapchain], currentFrame)
    | .errSuboptimal => (body ++ [FrameEvent.recreateSwapchain], currentFrame)
    | .errOther => (body ++ [FrameEvent.panicked], currentFrame)
  | _ => (pre ++ [FrameEvent.panicked], currentFrame)

/-- Is an event a reset of slot f's in-flight fence? -/
def isResetFence (f : Nat) : FrameEvent → Bool
  | .resetFence g => g == f
  | _ => false

/-- Is an event a queue submission whose signalling fence is slot f's? -/
def isSubmitWithFence (f : Nat) : FrameEvent → Bool
  | .queueSubmit _ g => g == f
  | _ => false

/-- Every reset of slot f's fence in the trace is strictly followed by a
queue submission that hands the device slot f's fence to signal. -/
def resetFollowedBySubmit (f : Nat) : List FrameEvent → Bool
  | [] => true
  | e :: rest =>
    (if isResetFence f e then rest.any (isSubmitWithFence f) else true) &&
      resetFollowedBySubmit f rest

end VkEngine

namespace VkEngine

/-! ## Theorems for the pure selection logic -/

/-- Helper: the preferred-format loop finds exactly the preferred pair. -/
theorem chooseFormatLoop_eq_some (formats : List SurfaceFormatKHR) :
    chooseFormatLoop formats =
      (if preferredSurfaceFormat ∈ formats then some preferredSurfaceFormat else none) := by
  induction formats with
  | nil => simp [chooseFormatLoop]
  | cons f rest ih =>
    by_cases hf : f.format = FORMAT_R8G8B8A8_SRGB ∧ f.colorSpace = COLOR_SPACE_SRGB_NONLINEAR
    · have hfe : f = preferredSurfaceFormat := by
        cases f
        simp only [preferredSurfaceFormat, SurfaceFormatKHR.mk.injEq]
        exact hf
      subst hfe
      rw [chooseFormatLoop, if_pos hf, if_pos (List.mem_cons_self _ _)]
    · have hne : preferredSurfaceFormat ≠ f := by
        intro h
        apply hf
        rw [← h]
        exact ⟨rfl, rfl⟩
      rw [chooseFormatLoop, if_neg hf, ih]
      simp [List.mem_cons, hne]

/-- Claim C6: for every non-empty supported-format list,
choose_swap_surface_format returns the preferred (R8G8B8A8_SRGB,
SRGB_NONLINEAR) pair whenever it occurs in the list, otherwise the first
entry of the list, and the choice is deterministic in the list. -/
theorem choose_swap_surface_format_spec (formats : List SurfaceFormatKHR)
    (hne : formats ≠ []) :
    (preferredSurfaceFormat ∈ formats →
      choose_swap_surface_format formats = some preferredSurfaceFormat)
    ∧ (preferredSurfaceFormat ∉ formats →
      choose_swap_surface_format formats = formats.head?)
    ∧ (∃ f, choose_swap_surface_format formats = some f)
    ∧ choose_swap_surface_format formats = choose_swap_surface_format formats := by
  refine ⟨?_, ?_, ?_, rfl⟩
  · intro hmem
    simp [choose_swap_surface_format, chooseFormatLoop_eq_some, hmem]
  · intro hmem
    simp [choose_swap_surface_format, chooseFormatLoop_eq_some, hmem]
  · by_cases hmem : preferredSurfaceFormat ∈ formats
    · exact ⟨preferredSurfaceFormat, by
        simp [choose_swap_surface_format, chooseFormatLoop_eq_some, hmem]⟩
    · obtain ⟨f, rest, rfl⟩ := List.exists_cons_of_ne_nil hne
      exact ⟨f, by simp [choose_swap_surface_format, chooseFormatLoop_eq_some, hmem]⟩

/-- Witness for C6 at a concrete two-element format list containing the
preferred pair in second position. -/
theorem choose_swap_surface_format_spec_witness :
    (preferredSurfaceFormat ∈ [SurfaceFormatKHR.mk 50 0, SurfaceFormatKHR.mk 43 0] →
      choose_swap_surface_format [SurfaceFormatKHR.mk 50 0, SurfaceFormatKHR.mk 43 0] =
        some preferredSurfaceFormat)
    ∧ (preferredSurfaceFormat ∉ [SurfaceFormatKHR.mk 50 0, SurfaceFormatKHR.mk 43 0] →
      choose_swap_surface_format [SurfaceFormatKHR.mk 50 0, SurfaceFormatKHR.mk 43 0] =
        [SurfaceFormatKHR.mk 50 0, SurfaceFormatKHR.mk 43 0].head?)
    ∧ (∃ f, choose_swap_surface_format [SurfaceFormatKHR.mk 50 0, SurfaceFormatKHR.mk 43 0] =
        some f)
    ∧ choose_swap_surface_format [SurfaceFormatKHR.mk 50 0, SurfaceFormatKHR.mk 43 0] =
        choose_swap_surface_format [SurfaceFormatKHR.mk 50 0, SurfaceFormatKHR.mk 43 0] :=
  choose_swap_surface_format_spec [SurfaceFormatKHR.mk 50 0, SurfaceFormatKHR.mk 43 0]
    (by decide)

/-- Claim C4: choose_swap_extent returns the reported current extent verbatim
whenever its width differs from the u32::MAX sentinel; otherwise it clamps the
window's inner size component-wise into [min_image_extent, max_image_extent]:
the result lies in the interval, equals the window size when that is already
in range, and saturates to the violated bound otherwise. -/
theorem choose_swap_extent_spec (w : Extent2D) (caps : SurfaceCapabilitiesKHR)
    (hW : caps.minImageExtent.width ≤ caps.maxImageExtent.width)
    (hH : caps.minImageExtent.height ≤ caps.maxImageExtent.height) :
    (caps.currentExtent.width ≠ U32_MAX → choose_swap_extent w caps = caps.currentExtent)
    ∧ (caps.currentExtent.width = U32_MAX →
      caps.minImageExtent.width ≤ (choose_swap_extent w caps).width
      ∧ (choose_swap_extent w caps).width ≤ caps.maxImageExtent.width
      ∧ caps.minImageExtent.height ≤ (choose_swap_extent w caps).height
      ∧ (choose_swap_extent w caps).height ≤ caps.maxImageExtent.height
      ∧ (caps.minImageExtent.width ≤ w.width → w.width ≤ caps.maxImageExtent.width →
          (choose_swap_extent w caps).width = w.width)
      ∧ (caps.minImageExtent.height ≤ w.height → w.height ≤ caps.maxImageExtent.height →
          (choose_swap_extent w caps).height = w.height)
      ∧ (w.width < caps.minImageExtent.width →
          (choose_swap_extent w caps).width = caps.minImageExtent.width)
      ∧ (w.width > caps.maxImageExtent.width →
          (choose_swap_extent w caps).width = caps.maxImageExtent.width)
      ∧ (w.height < caps.minImageExtent.height →
          (choose_swap_extent w caps).height = caps.minImageExtent.height)
      ∧ (w.height > caps.maxImageExtent.height →
          (choose_swap_extent w caps).height = caps.maxImageExtent.height)) := by
  constructor
  · intro hfix
    simp [choose_swap_extent, hfix]
  · intro hfree
    simp only [choose_swap_extent, hfree, ne_eq, not_true_eq_false, if_false]
    unfold rustClampU32
    refine ⟨?_, ?_, ?_, ?_, ?_, ?_, ?_, ?_, ?_, ?_⟩ <;>
      · split_ifs <;> omega

/-- Witness for C4: caps with the sentinel extent and window size 5000×100,
min extent 200×200, max extent 4000×4000. -/
theorem choose_swap_extent_spec_witness :
    ((SurfaceCapabilitiesKHR.mk 2 0 (Extent2D.mk U32_MAX 0) (Extent2D.mk 200 200)
        (Extent2D.mk 4000 4000)).currentExtent.width ≠ U32_MAX →
      choose_swap_extent (Extent2D.mk 5000 100)
          (SurfaceCapabilitiesKHR.mk 2 0 (Extent2D.mk U32_MAX 0) (Extent2D.mk 200 200)
            (Extent2D.mk 4000 4000)) =
        (SurfaceCapabilitiesKHR.mk 2 0 (Extent2D.mk U32_MAX 0) (Extent2D.mk 200 200)
          (Extent2D.mk 4000 4000)).currentExtent)
    ∧ ((SurfaceCapabilitiesKHR.mk 2 0 (Extent2D.mk U32_MAX 0) (Extent2D.mk 200 200)
        (Extent2D.mk 4000 4000)).currentExtent.width = U32_MAX →
      (SurfaceCapabilitiesKHR.mk 2 0 (Extent2D.mk U32_MAX 0) (Extent2D.mk 200 200)
          (Extent2D.mk 4000 4000)).minImageExtent.width ≤
        (choose_swap_extent (Extent2D.mk 5000 100)
          (SurfaceCapabilitiesKHR.mk 2 0 (Extent2D.mk U32_MAX 0) (Extent2D.mk 200 200)
            (Extent2D.mk 4000 4000))).width
      ∧ (choose_swap_extent (Extent2D.mk 5000 100)
          (SurfaceCapabilitiesKHR.mk 2 0 (Extent2D.mk U32_MAX 0) (Extent2D.mk 200 200)
            (Extent2D.mk 4000 4000))).width ≤
        (SurfaceCapabilitiesKHR.mk 2 0 (Extent2D.mk U32_MAX 0) (Extent2D.mk 200 200)
          (Extent2D.mk 4000 4000)).maxImageExtent.width
      ∧ (SurfaceCapabilitiesKHR.mk 2 0 (Extent2D.mk U32_MAX 0) (Extent2D.mk 200 200)
          (Extent2D.mk 4000 4000)).minImageExtent.height ≤
        (choose_swap_extent (Extent2D.mk 5000 100)
          (SurfaceCapabilitiesKHR.mk 2 0 (Extent2D.mk U32_MAX 0) (Extent2D.mk 200 200)
            (Extent2D.mk 4000 4000))).height
      ∧ (choose_swap_extent (Extent2D.mk 5000 100)
          (SurfaceCapabilitiesKHR.mk 2 0 (Extent2D.mk U32_MAX 0) (Extent2D.mk 200 200)
            (Extent2D.mk 4000 4000))).height ≤
        (SurfaceCapabilitiesKHR.mk 2 0 (Extent2D.mk U32_MAX 0) (Extent2D.mk 200 200)
          (Extent2D.mk 4000 4000)).maxImageExtent.height
      ∧ ((SurfaceCapabilitiesKHR.mk 2 0 (Extent2D.mk U32_MAX 0) (Extent2D.mk 200 200)
            (Extent2D.mk 4000 4000)).minImageExtent.width ≤ (Extent2D.mk 5000 100).width →
          (Extent2D.mk 5000 100).width ≤
            (SurfaceCapabilitiesKHR.mk 2 0 (Extent2D.mk U32_MAX 0) (Extent2D.mk 200 200)
              (Extent2D.mk 4000 4000)).maxImageExtent.width →
          (choose_swap_extent (Extent2D.mk 5000 100)
            (SurfaceCapabilitiesKHR.mk 2 0 (Extent2D.mk U32_MAX 0) (Extent2D.mk 200 200)
              (Extent2D.mk 4000 4000))).width = (Extent2D.mk 5000 100).width)
      ∧ ((SurfaceCapabilitiesKHR.mk 2 0 (Extent2D.mk U32_MAX 0) (Extent2D.mk 200 200)
            (Extent2D.mk 4000 4000)).minImageExtent.height ≤ (Extent2D.mk 5000 100).height →
          (Extent2D.mk 5000 100).height ≤
            (SurfaceCapabilitiesKHR.mk 2 0 (Extent2D.mk U32_MAX 0) (Extent2D.mk 200 200)
              (Extent2D.mk 4000 4000)).maxImageExtent.height →
          (choose_swap_extent (Extent2D.mk 5000 100)
            (SurfaceCapabilitiesKHR.mk 2 0 (Extent2D.mk U32_MAX 0) (Extent2D.mk 200 200)
              (Extent2D.mk 4000 4000))).height = (Extent2D.mk 5000 100).height)
      ∧ ((Extent2D.mk 5000 100).width <
            (SurfaceCapabilitiesKHR.mk 2 0 (Extent2D.mk U32_MAX 0) (Extent2D.mk 200 200)
              (Extent2D.mk 4000 4000)).minImageExtent.width →
          (choose_swap_extent (Extent2D.mk 5000 100)
            (SurfaceCapabilitiesKHR.mk 2 0 (Extent2D.mk U32_MAX 0) (Extent2D.mk 200 200)
              (Extent2D.mk 4000 4000))).width =
            (SurfaceCapabilitiesKHR.mk 2 0 (Extent2D.mk U32_MAX 0) (Extent2D.mk 200 200)
              (Extent2D.mk 4000 4000)).minImageExtent.width)
      ∧ ((Extent2D.mk 5000 100).width >
            (SurfaceCapabilitiesKHR.mk 2 0 (Extent2D.mk U32_MAX 0) (Extent2D.mk 200 200)
              (Extent2D.mk 4000 4000)).maxImageExtent.width →
          (choose_swap_extent (Extent2D.mk 5000 100)
            (SurfaceCapabilitiesKHR.mk 2 0 (Extent2D.mk U32_MAX 0) (Extent2D.mk 200 200)
              (Extent2D.mk 4000 4000))).width =
            (SurfaceCapabilitiesKHR.mk 2 0 (Extent2D.mk U32_MAX 0) (Extent2D.mk 200 200)
              (Extent2D.mk 4000 4000)).maxImageExtent.width)
      ∧ ((Extent2D.mk 5000 100).height <
            (SurfaceCapabilitiesKHR.mk 2 0 (Extent2D.mk U32_MAX 0) (Extent2D.mk 200 200)
              (Extent2D.mk 4000 4000)).minImageExtent.height →
          (choose_swap_extent (Extent2D.mk 5000 100)
            (SurfaceCapabilitiesKHR.mk 2 0 (Extent2D.mk U32_MAX 0) (Extent2D.mk 200 200)
              (Extent2D.mk 4000 4000))).height =
            (SurfaceCapabilitiesKHR.mk 2 0 (Extent2D.mk U32_MAX 0) (Extent2D.mk 200 200)
              (Extent2D.mk 4000 4000)).minImageExtent.height)
      ∧ ((Extent2D.mk 5000 100).height >
            (SurfaceCapabilitiesKHR.mk 2 0 (Extent2D.mk U32_MAX 0) (Extent2D.mk 200 200)
              (Extent2D.mk 4000 4000)).maxImageExtent.height →
          (choose_swap_extent (Extent2D.mk 5000 100)
            (SurfaceCapabilitiesKHR.mk 2 0 (Extent2D.mk U32_MAX 0) (Extent2D.mk 200 200)
              (Extent2D.mk 4000 4000))).height =
            (SurfaceCapabilitiesKHR.mk 2 0 (Extent2D.mk U32_MAX 0) (Extent2D.mk 200 200)
              (Extent2D.mk 4000 4000)).maxImageExtent.height)) :=
  choose_swap_extent_spec (Extent2D.mk 5000 100)
    (SurfaceCapabilitiesKHR.mk 2 0 (Extent2D.mk U32_MAX 0) (Extent2D.mk 200 200)
      (Extent2D.mk 4000 4000)) (by decide) (by decide)

/-- Claim C7: the swapchain image count requested by create_swapchain is
min_image_count + 1, except that a nonzero max_image_count smaller than
min_image_count + 1 caps it at max_image_count. -/
theorem swapchain_image_count_spec (caps : SurfaceCapabilitiesKHR) :
    (caps.maxImageCount ≠ 0 → caps.maxImageCount < caps.minImageCount + 1 →
      swapchainImageCount caps = caps.maxImageCount)
    ∧ (caps.maxImageCount = 0 ∨ caps.minImageCount + 1 ≤ caps.maxImageCount →
      swapchainImageCount caps = caps.minImageCount + 1) := by
  unfold swapchainImageCount
  constructor
  · intro hnz hlt
    rw [if_pos]
    exact ⟨Nat.pos_of_ne_zero hnz, hlt⟩
  · intro h
    rw [if_neg]
    rcases h with h0 | hle
    · intro hc
      rw [h0] at hc
      exact absurd hc.1 (lt_irrefl 0)
    · intro hc
      exact absurd hc.2 (not_lt_of_le hle)

/-- Helper: characterization of the find_memory_type loop's success results,
for an arbitrary starting index. -/
theorem findMemoryTypeLoop_ok (tf props : Nat) :
    ∀ (l : List MemoryType) (s j : Nat) (m : MemoryType),
      findMemoryTypeLoop tf props s l = .ok (j, m) →
      s ≤ j ∧ l.get? (j - s) = some m ∧ memTypeMatches tf props j m ∧
        ∀ k, s ≤ k → k < j → ∀ mk, l.get? (k - s) = some mk →
          ¬ memTypeMatches tf props k mk := by
  intro l
  induction l with
  | nil =>
    intro s j m h
    simp [findMemoryTypeLoop] at h
  | cons x rest ih =>
    intro s j m h
    rw [findMemoryTypeLoop] at h
    by_cases hc : tf &&& (1 <<< s) ≠ 0 ∧ x.propertyFlags &&& props = props
    · rw [if_pos hc] at h
      simp only [Except.ok.injEq, Prod.mk.injEq] at h
      obtain ⟨rfl, rfl⟩ := h
      refine ⟨le_refl s, by simp, ⟨hc.1, hc.2⟩, ?_⟩
      intro k hsk hks
      omega
    · rw [if_neg hc] at h
      obtain ⟨hsj, hget, hmatch, hmin⟩ := ih (s + 1) j m h
      refine ⟨by omega, ?_, hmatch, ?_⟩
      · have harith : j - s = (j - (s + 1)) + 1 := by omega
        rw [harith]
        simpa using hget
      · intro k hsk hkj mk hgetk
        by_cases hks : k = s
        · subst hks
          have hxmk : mk = x := by
            have : (x :: rest).get? 0 = some mk := by simpa [Nat.sub_self] using hgetk
            simp at this
            exact this.symm
          subst hxmk
          intro hm
          exact hc ⟨hm.1, hm.2⟩
        · have hsk1 : s + 1 ≤ k := by omega
          have harith : k - s = (k - (s + 1)) + 1 := by omega
          rw [harith] at hgetk
          exact hmin k hsk1 hkj mk (by simpa using hgetk)

/-- Helper: the find_memory_type loop reports the no-suitable-type error
exactly when no remaining entry matches at its index. -/
theorem findMemoryTypeLoop_error (tf props : Nat) :
    ∀ (l : List MemoryType) (s : Nat),
      findMemoryTypeLoop tf props s l = .error "No suitable memory type found!" ↔
        ∀ k mk, l.get? k = some mk → ¬ memTypeMatches tf props (s + k) mk := by
  intro l
  induction l with
  | nil =>
    intro s
    constructor
    · intro _ k mk hk
      simp at hk
    · intro _
      rfl
  | cons x rest ih =>
    intro s
    rw [findMemoryTypeLoop]
    by_cases hc : tf &&& (1 <<< s) ≠ 0 ∧ x.propertyFlags &&& props = props
    · rw [if_pos hc]
      constructor
      · intro h
        simp at h
      · intro hall
        exact absurd (show memTypeMatches tf props (s + 0) x from ⟨hc.1, hc.2⟩)
          (hall 0 x rfl)
    · rw [if_neg hc, ih (s + 1)]
      constructor
      · intro hall k mk hk
        cases k with
        | zero =>
          have hxmk : mk = x := by
            simp at hk
            exact hk.symm
          subst hxmk
          intro hm
          exact hc ⟨hm.1, hm.2⟩
        | succ k2 =>
          have harith : s + (k2 + 1) = s + 1 + k2 := by omega
          rw [harith]
          exact hall k2 mk (by simpa using hk)
      · intro hall k mk hk
        have harith : s + 1 + k = s + (k + 1) := by omega
        rw [harith]
        exact hall (k + 1) mk (by simpa using hk)

/-- Helper: the only error string the find_memory_type loop can produce. -/
theorem findMemoryTypeLoop_error_val (tf props : Nat) :
    ∀ (l : List MemoryType) (s : Nat) (e : String),
      findMemoryTypeLoop tf props s l = .error e → e = "No suitable memory type found!" := by
  intro l
  induction l with
  | nil =>
    intro s e h
    simp [findMemoryTypeLoop] at h
    exact h.symm
  | cons x rest ih =>
    intro s e h
    rw [findMemoryTypeLoop] at h
    by_cases hc : tf &&& (1 <<< s) ≠ 0 ∧ x.propertyFlags &&& props = props
    · rw [if_pos hc] at h
      simp at h
    · rw [if_neg hc] at h
      exact ih (s + 1) e h

/-- Claim C5: find_memory_type returns Ok with the lowest-indexed reported
memory type whose type-filter bit is set and whose property flags contain the
requested properties; when no type matches it returns the
error "No suitable memory type found!", and it never returns a non-matching
type. -/
theorem find_memory_type_spec (types : List MemoryType) (tf props : Nat) :
    (∀ j m, find_memory_type types tf props = .ok (j, m) →
        types.get? j = some m ∧ memTypeMatches tf props j m ∧
        ∀ k, k < j → ∀ mk, types.get? k = some mk → ¬ memTypeMatches tf props k mk)
    ∧ (find_memory_type types tf props = .error "No suitable memory type found!" ↔
        ∀ k mk, types.get? k = some mk → ¬ memTypeMatches tf props k mk)
    ∧ ((∃ k mk, types.get? k = some mk ∧ memTypeMatches tf props k mk) →
        ∃ j m, find_memory_type types tf props = .ok (j, m)) := by
  refine ⟨?_, ?_, ?_⟩
  · intro j m h
    obtain ⟨hsj, hget, hmatch, hmin⟩ := findMemoryTypeLoop_ok tf props types 0 j m h
    refine ⟨by simpa using hget, hmatch, ?_⟩
    intro k hk mk hgetk
    exact hmin k (Nat.zero_le k) hk mk (by simpa using hgetk)
  · have h := findMemoryTypeLoop_error tf props types 0
    simpa [find_memory_type] using h
  · rintro ⟨k, mk, hget, hmatch⟩
    cases hres : find_memory_type types tf props with
    | ok p => exact ⟨p.1, p.2, rfl⟩
    | error e =>
      have he := findMemoryTypeLoop_error_val tf props types 0 e hres
      subst he
      have hall := (findMemoryTypeLoop_error tf props types 0).mp hres
      exact absurd hmatch (by simpa using hall k mk hget)

/-- Witness for C5 at memory types [flags 0, flags 7], type filter 0b11,
requested properties 0b101: the lowest matching index is 1. -/
theorem find_memory_type_spec_witness :
    ([MemoryType.mk 0, MemoryType.mk 7] : List MemoryType).get? 1 = some (MemoryType.mk 7)
    ∧ memTypeMatches 3 5 1 (MemoryType.mk 7)
    ∧ ∀ k, k < 1 → ∀ mk,
        ([MemoryType.mk 0, MemoryType.mk 7] : List MemoryType).get? k = some mk →
        ¬ memTypeMatches 3 5 k mk :=
  (find_memory_type_spec [MemoryType.mk 0, MemoryType.mk 7] 3 5).1 1 (MemoryType.mk 7)
    (by rfl)

/-- Claim C3 (the code contradicts it): with two enumerated adapters scoring
1000 then 0, an adapter with a non-zero score exists, and Rust's max_by_key
does select it, yet find_physical_device panics
with "No suitable GPU could be found!" because the suitability variable
mutated by the max_by_key closure retains the score of the LAST enumerated
adapter, not the maximum. -/
theorem find_physical_device_bug :
    scoreEx 0 = 1000
    ∧ scoreEx 1 = 0
    ∧ maxByKeyLast scoreEx 0 [1] = 0
    ∧ find_physical_device scoreEx [0, 1] = FindDeviceResult.panicNoSuitableGPU := by
  decide

/-- Witness for C7: min_image_count 3, max_image_count 3, requested count 3. -/
theorem swapchain_image_count_spec_witness :
    ((SurfaceCapabilitiesKHR.mk 3 3 (Extent2D.mk 0 0) (Extent2D.mk 0 0)
        (Extent2D.mk 0 0)).maxImageCount ≠ 0 →
      (SurfaceCapabilitiesKHR.mk 3 3 (Extent2D.mk 0 0) (Extent2D.mk 0 0)
          (Extent2D.mk 0 0)).maxImageCount <
        (SurfaceCapabilitiesKHR.mk 3 3 (Extent2D.mk 0 0) (Extent2D.mk 0 0)
          (Extent2D.mk 0 0)).minImageCount + 1 →
      swapchainImageCount (SurfaceCapabilitiesKHR.mk 3 3 (Extent2D.mk 0 0) (Extent2D.mk 0 0)
          (Extent2D.mk 0 0)) =
        (SurfaceCapabilitiesKHR.mk 3 3 (Extent2D.mk 0 0) (Extent2D.mk 0 0)
          (Extent2D.mk 0 0)).maxImageCount)
    ∧ ((SurfaceCapabilitiesKHR.mk 3 3 (Extent2D.mk 0 0) (Extent2D.mk 0 0)
          (Extent2D.mk 0 0)).maxImageCount = 0 ∨
        (SurfaceCapabilitiesKHR.mk 3 3 (Extent2D.mk 0 0) (Extent2D.mk 0 0)
            (Extent2D.mk 0 0)).minImageCount + 1 ≤
          (SurfaceCapabilitiesKHR.mk 3 3 (Extent2D.mk 0 0) (Extent2D.mk 0 0)
            (Extent2D.mk 0 0)).maxImageCount →
      swapchainImageCount (SurfaceCapabilitiesKHR.mk 3 3 (Extent2D.mk 0 0) (Extent2D.mk 0 0)
          (Extent2D.mk 0 0)) =
        (SurfaceCapabilitiesKHR.mk 3 3 (Extent2D.mk 0 0) (Extent2D.mk 0 0)
          (Extent2D.mk 0 0)).minImageCount + 1) :=
  swapchain_image_count_spec
    (SurfaceCapabilitiesKHR.mk 3 3 (Extent2D.mk 0 0) (Extent2D.mk 0 0) (Extent2D.mk 0 0))

/-- Claim C9 counterexample: dropping a ManagedImage that owns memory (not
currently mapped) frees the backing device memory BEFORE destroying the image
view and image, so the memory is not freed after the objects depending on it
as the claim requires. -/
theorem managed_image_drop_frees_memory_first :
    managedImageDrop (MemoryState.mk (some 0) none) =
      .ok [DeviceCall.freeMemory 0, DeviceCall.destroyImageView, DeviceCall.destroyImage]
    ∧ occursBefore (DeviceCall.freeMemory 0) DeviceCall.destroyImageView
        [DeviceCall.freeMemory 0, DeviceCall.destroyImageView, DeviceCall.destroyImage] = true
    ∧ occursBefore DeviceCall.destroyImageView (DeviceCall.freeMemory 0)
        [DeviceCall.freeMemory 0, DeviceCall.destroyImageView, DeviceCall.destroyImage] =
      false :=
  ⟨rfl, rfl, rfl⟩

/-- Claim C9 as amended: for every ManagedImage owning memory m, Drop unmaps
first (only if currently mapped), then frees the backing memory, then
destroys the image view, then the image; for every such ManagedBuffer, Drop
unmaps (if mapped), frees the memory, then destroys the buffer. -/
theorem managed_drop_order (m : Nat) (mappedPtr : Option Nat) :
    managedImageDrop (MemoryState.mk (some m) mappedPtr) =
      .ok ((if mappedPtr.isSome then [DeviceCall.unmapMemory m] else []) ++
        [DeviceCall.freeMemory m, DeviceCall.destroyImageView, DeviceCall.destroyImage])
    ∧ managedBufferDrop (MemoryState.mk (some m) mappedPtr) =
      .ok ((if mappedPtr.isSome then [DeviceCall.unmapMemory m] else []) ++
        [DeviceCall.freeMemory m, DeviceCall.destroyBuffer]) := by
  cases mappedPtr <;>
    simp [managedImageDrop, managedBufferDrop, unmap_image_memory, unmap_buffer_memory]

/-- Claim C10: explicit unmapping leaves the stored mapping pointer Some, so
a later map call panics with the re-map message even though the memory is no
longer mapped, and Drop issues a second unmap device call; both for
ManagedBuffer and ManagedImage. -/
theorem unmap_keeps_mapping_pointer (m p q : Nat) :
    map_buffer_memory (MemoryState.mk (some m) none) p =
      .ok (MemoryState.mk (some m) (some p))
    ∧ unmap_buffer_memory (MemoryState.mk (some m) (some p)) =
      .ok (MemoryState.mk (some m) (some p), [DeviceCall.unmapMemory m])
    ∧ map_buffer_memory (MemoryState.mk (some m) (some p)) q =
      .error "Attempt to re-map buffer memory!"
    ∧ managedBufferDrop (MemoryState.mk (some m) (some p)) =
      .ok [DeviceCall.unmapMemory m, DeviceCall.freeMemory m, DeviceCall.destroyBuffer]
    ∧ map_image_memory (MemoryState.mk (some m) none) p =
      .ok (MemoryState.mk (some m) (some p))
    ∧ unmap_image_memory (MemoryState.mk (some m) (some p)) =
      .ok (MemoryState.mk (some m) (some p), [DeviceCall.unmapMemory m])
    ∧ map_image_memory (MemoryState.mk (some m) (some p)) q =
      .error "Attempt to re-map image memory!"
    ∧ managedImageDrop (MemoryState.mk (some m) (some p)) =
      .ok [DeviceCall.unmapMemory m, DeviceCall.freeMemory m, DeviceCall.destroyImageView,
        DeviceCall.destroyImage] :=
  ⟨rfl, rfl, rfl, rfl, rfl, rfl, rfl, rfl⟩

/-- Claim C1: in every frame-loop variant and at every reachable slot, an
out-of-date acquire result abandons the iteration (swapchain recreated,
early return) with no fence reset having happened, and in every iteration
whatsoever each reset of slot f's fence is strictly followed by a queue
submission signalling that fence, so the fence is never left reset without a
submission. -/
theorem fence_reset_discipline (f : Nat) (acq : AcquireResult) (pres : PresentResult)
    (zooming : Bool) :
    (acq = AcquireResult.errOutOfDate →
      (cubeFrameIteration f acq pres).1 =
        [FrameEvent.waitFence f, FrameEvent.acquireImage f, FrameEvent.recreateSwapchain]
      ∧ (mandelbrotFrameIteration f acq pres).1 =
        [FrameEvent.waitFence f, FrameEvent.acquireImage f, FrameEvent.recreateSwapchain]
      ∧ (mainRsFrameIteration f acq pres zooming).1 =
        [FrameEvent.waitFence f, FrameEvent.acquireImage f, FrameEvent.recreateSwapchain])
    ∧ resetFollowedBySubmit f (cubeFrameIteration f acq pres).1 = true
    ∧ resetFollowedBySubmit f (mandelbrotFrameIteration f acq pres).1 = true
    ∧ resetFollowedBySubmit f (mainRsFrameIteration f acq pres zooming).1 = true := by
  cases acq <;> cases pres <;> cases zooming <;>
    simp [cubeFrameIteration, mandelbrotFrameIteration, mainRsFrameIteration,
      submit_drawing_command_buffer, resetFollowedBySubmit, isResetFence, isSubmitWithFence]

/-- Witness for C1 at slot 0 with an out-of-date acquire. -/
theorem fence_reset_discipline_witness :
    (cubeFrameIteration 0 AcquireResult.errOutOfDate (PresentResult.ok false)).1 =
      [FrameEvent.waitFence 0, FrameEvent.acquireImage 0, FrameEvent.recreateSwapchain]
    ∧ (mandelbrotFrameIteration 0 AcquireResult.errOutOfDate (PresentResult.ok false)).1 =
      [FrameEvent.waitFence 0, FrameEvent.acquireImage 0, FrameEvent.recreateSwapchain]
    ∧ (mainRsFrameIteration 0 AcquireResult.errOutOfDate (PresentResult.ok false) false).1 =
      [FrameEvent.waitFence 0, FrameEvent.acquireImage 0, FrameEvent.recreateSwapchain] :=
  (fence_reset_discipline 0 AcquireResult.errOutOfDate (PresentResult.ok false) false).1 rfl

/-- Claim C2 counterexample: in the final variant's loop at frame slot 0 with
acquired image index 1, the recorded command buffer and the submitted command
buffer are both index 0 (the frame slot), and no recording or submission of
command buffer 1 (the acquired image index) occurs. -/
theorem command_buffer_uses_slot_counterexample :
    (cubeFrameIteration 0 (AcquireResult.success 1 false) (PresentResult.ok false)).1 =
      [FrameEvent.waitFence 0, FrameEvent.acquireImage 0, FrameEvent.resetFence 0,
        FrameEvent.recordCommandBuffer 0, FrameEvent.queueSubmit 0 0,
        FrameEvent.presentImage 1]
    ∧ FrameEvent.recordCommandBuffer 1 ∉
      (cubeFrameIteration 0 (AcquireResult.success 1 false) (PresentResult.ok false)).1
    ∧ (submit_drawing_command_buffer 0).commandBufferIndex ≠ 1 := by
  refine ⟨rfl, by decide, by decide⟩

/-- Claim C2 as amended: in every frame-loop iteration of the final variant
that acquires successfully, the command buffer recorded and the one submitted
are the one indexed by the current frame slot (the same index as the slot's
semaphores and fence in submit_drawing_command_buffer), not by the acquired
image index. -/
theorem cube_command_buffer_indexed_by_frame_slot (f i : Nat) (sub : Bool)
    (pres : PresentResult) (hne : i ≠ f) :
    FrameEvent.recordCommandBuffer f ∈
      (cubeFrameIteration f (AcquireResult.success i sub) pres).1
    ∧ FrameEvent.queueSubmit (submit_drawing_command_buffer f).commandBufferIndex
        (submit_drawing_command_buffer f).fenceIndex ∈
      (cubeFrameIteration f (AcquireResult.success i sub) pres).1
    ∧ (submit_drawing_command_buffer f).commandBufferIndex = f
    ∧ (submit_drawing_command_buffer f).waitSemaphoreIndex = f
    ∧ (submit_drawing_command_buffer f).signalSemaphoreIndex = f
    ∧ (submit_drawing_command_buffer f).fenceIndex = f
    ∧ FrameEvent.recordCommandBuffer i ∉
      (cubeFrameIteration f (AcquireResult.success i sub) pres).1
    ∧ ∀ c g, FrameEvent.queueSubmit c g ∈
        (cubeFrameIteration f (AcquireResult.success i sub) pres).1 → c = f ∧ g = f := by
  cases pres <;>
    simp [cubeFrameIteration, submit_drawing_command_buffer, hne]

/-- Witness for the amended C2 at slot 0, image index 1. -/
theorem cube_command_buffer_indexed_by_frame_slot_witness :
    FrameEvent.recordCommandBuffer 0 ∈
      (cubeFrameIteration 0 (AcquireResult.success 1 false) (PresentResult.ok false)).1
    ∧ FrameEvent.recordCommandBuffer 1 ∉
      (cubeFrameIteration 0 (AcquireResult.success 1 false) (PresentResult.ok false)).1 :=
  ⟨(cube_command_buffer_indexed_by_frame_slot 0 1 false (PresentResult.ok false)
      (by decide)).1,
    (cube_command_buffer_indexed_by_frame_slot 0 1 false (PresentResult.ok false)
      (by decide)).2.2.2.2.2.2.1⟩

/-- Claim C8 (the src/main.rs variant contradicts it): after a fully
successful iteration the cube.rs loop advances the frame slot to
(f + 1) mod MAX_FRAMES_IN_FLIGHT, but src/main.rs executes
current_frame = current_frame % MAX_FRAMES_IN_FLIGHT, which leaves the slot
unchanged, so its slot sequence is 0, 0, 0, ... rather than 0, 1, 0, 1, .... -/
theorem main_rs_frame_slot_never_advances :
    (mainRsFrameIteration 0 (AcquireResult.success 0 false) (PresentResult.ok false) false).2 = 0
    ∧ (mainRsFrameIteration 1 (AcquireResult.success 0 false) (PresentResult.ok false)
        false).2 = 1
    ∧ (cubeFrameIteration 0 (AcquireResult.success 0 false) (PresentResult.ok false)).2 = 1
    ∧ (cubeFrameIteration 1 (AcquireResult.success 0 false) (PresentResult.ok false)).2 = 0
    ∧ (mandelbrotFrameIteration 0 (AcquireResult.success 0 false)
        (PresentResult.ok false)).2 = 1 := by
  decide

end VkEngine
